import Mathlib

/-!
Shallow embedding of the synthetic-adsb repository (src/bridge.py and
src/server.py) and proofs about its polling / fan-out / store pipeline.

External effects (sockets, HTTP requests, the measurement store, logging and
sleeping) are made explicit: each network call takes an oracle argument
describing the outside world's response for that call, and every observable
action of the code is recorded in a trace of events.  Machine floats of the
Python source are modelled as rationals; the trigonometric values used by the
synthetic server (which are irrational) enter its model as oracle inputs.
-/

/-- JSON values as produced by `resp.json()` / `jsonify`; object fields are
kept in the insertion order of the Python dict literals that build them. -/
inductive JVal where
  | num (q : ℚ)
  | str (s : String)
  | arr (l : List JVal)
  | obj (fields : List (String × JVal))

/-- Severity levels of the logging calls appearing in bridge.py. -/
inductive LogLevel where
  | info
  | warning
  | error
deriving DecidableEq

/-- One constructor per logging call site of bridge.py: the error log inside
check_port_open, the port-not-open / attempt / success / timeout /
connection-error / unexpected-error logs of fetch_adsb, the skip-iteration
warning of the main loop, the per-radar error log, and the outer
main-loop error log. -/
inductive LogSite where
  | portCheckError
  | portNotOpen
  | attemptFetch
  | fetchSuccess
  | fetchTimeout
  | fetchConnError
  | fetchUnexpected
  | skipIteration
  | radarError (rid : String)
  | mainLoopError
deriving DecidableEq

/-- Observable actions of bridge.py: the TCP probe of check_port_open, the
feed HTTP GET with its timeout, a logging call, the geometry HTTP GET issued
by query_adsb2dd_for (carrying the radar id and the URL built by
build_adsb2dd_url), a store.add_measurement call with its arguments, and a
time.sleep call with its duration. -/
inductive Event where
  | probe (host : String) (port : ℕ)
  | httpGet (url : String) (timeout : ℚ)
  | log (lvl : LogLevel) (site : LogSite)
  | query (rid : String) (url : String)
  | add (rid : String) (delay doppler : ℚ)
  | sleep (d : ℚ)
deriving DecidableEq

namespace Bridge

/-- Configuration constant ADSB_JSON_HOST of bridge.py. -/
def ADSB_JSON_HOST : String := "http://192.168.0.172:5001"

/-- Configuration constant ADSB_JSON_PATH of bridge.py. -/
def ADSB_JSON_PATH : String := "/data/aircraft.json"

/-- Configuration constant ADSB2DD_URL of bridge.py. -/
def ADSB2DD_URL : String := "http://192.168.0.219:49155/api/dd"

/-- Configuration constant POLL_RATE_HZ of bridge.py (1.0). -/
def POLL_RATE_HZ : ℚ := mkRat 1 1

/-- One entry of the RADARS configuration list of bridge.py. -/
structure Radar where
  id : String
  lat : ℚ
  lon : ℚ
  alt : ℚ
deriving DecidableEq

/-- First entry of the RADARS configuration list of bridge.py:
id rx1, position (-34.9192, 138.6027, 110); the decimal literals of the
source are written as explicit fractions. -/
def rx1 : Radar := ⟨"rx1", mkRat (-349192) 10000, mkRat 1386027 10000, mkRat 110 1⟩

/-- Second entry of the RADARS configuration list of bridge.py:
id rx2, position (-34.9315, 138.6967, 408). -/
def rx2 : Radar := ⟨"rx2", mkRat (-349315) 10000, mkRat 1386967 10000, mkRat 408 1⟩

/-- Third entry of the RADARS configuration list of bridge.py:
id rx3, position (-34.8414, 138.7237, 230). -/
def rx3 : Radar := ⟨"rx3", mkRat (-348414) 10000, mkRat 1387237 10000, mkRat 230 1⟩

/-- Configuration constant RADARS of bridge.py. -/
def RADARS : List Radar := [rx1, rx2, rx3]

/-- A geodetic position, as in the TX configuration dict of bridge.py. -/
structure Position where
  lat : ℚ
  lon : ℚ
  alt : ℚ

/-- Configuration constant TX of bridge.py: (-34.9810, 138.7081, 750). -/
def TX : Position := ⟨mkRat (-349810) 10000, mkRat 1387081 10000, mkRat 750 1⟩

/-- Configuration constant FC_MHZ of bridge.py (204.64). -/
def FC_MHZ : ℚ := mkRat 20464 100

/-- Decimal digits of the fraction n / d, most significant first, stopping
when the remainder reaches 0; fuel-bounded for termination.  Used to render
the configuration numbers the way Python renders them. -/
def fracDigits : ℕ → ℕ → ℕ → String
  | 0, _, _ => ""
  | _, 0, _ => ""
  | fuel + 1, n, d =>
    let m := n * 10
    toString (m / d) ++ fracDigits fuel (m % d) d

/-- Renders a configuration number the way a Python f-string renders it:
sign, integer part, and the (terminating) decimal digits with trailing zeros
dropped, no decimal point for integers.  On every numeric literal of the
bridge.py configuration this agrees with CPython's shortest round-trip
float/int formatting. -/
def pyNumStr (q : ℚ) : String :=
  let sgn := if q.num < 0 then "-" else ""
  let na : ℕ := q.num.natAbs
  let ds := fracDigits 30 (na % q.den) q.den
  sgn ++ toString (na / q.den) ++ (if ds = "" then "" else "." ++ ds)

/-- Embeds build_adsb2dd_url of bridge.py: a dict of the four query
parameters in insertion order rx, tx, fc, server, joined by "&" with "=" and
appended to ADSB2DD_URL after "?". -/
def build_adsb2dd_url (radar : Radar) : String :=
  let params : List (String × String) := [
    ("rx", pyNumStr radar.lat ++ "," ++ pyNumStr radar.lon ++ "," ++ pyNumStr radar.alt),
    ("tx", pyNumStr TX.lat ++ "," ++ pyNumStr TX.lon ++ "," ++ pyNumStr TX.alt),
    ("fc", pyNumStr FC_MHZ),
    ("server", ADSB_JSON_HOST)]
  let qs := String.intercalate "&" (params.map fun p => p.1 ++ "=" ++ p.2)
  ADSB2DD_URL ++ "?" ++ qs

/-- Embeds check_port_open of bridge.py.  The socket create / settimeout /
connect_ex sequence is summarised by the oracle `connectResult`:
`Except.ok r` means connect_ex returned the error code r, `Except.error ()`
means an exception was raised while probing (caught by the function's
try/except, which logs and returns False).  sock.close() is treated as
non-failing.  Returns the boolean result together with the trace of
observable actions. -/
def check_port_open (host : String) (port : ℕ) (timeout : ℚ)
    (connectResult : Except Unit Int) : Bool × List Event :=
  match connectResult with
  | .ok r => (r == 0, [.probe host port])
  | .error _ => (false, [.probe host port, .log .error .portCheckError])

/-- Outcome of the HTTP GET issued by requests.get inside fetch_adsb:
a timeout (requests.exceptions.Timeout), a connection error
(requests.exceptions.ConnectionError), or a response with a status code and
a body (`none` standing for a body that resp.json() cannot parse). -/
inductive HttpResult where
  | timeout
  | connectionError
  | response (status : ℕ) (body : Option JVal)

/-- The feed URL f-string of fetch_adsb. -/
def feedUrl : String := ADSB_JSON_HOST ++ ADSB_JSON_PATH

/-- Embeds fetch_adsb of bridge.py.  First calls
check_port_open("localhost", 5001) and returns None if the port is closed;
otherwise issues the GET with timeout 5 and handles requests exceptions:
Timeout and ConnectionError have their own except branches,
resp.raise_for_status() raises exactly for status codes 400-599 and that
exception, like a JSON parse failure, is caught by the generic except
branch.  Every failure returns None. -/
def fetch_adsb (connectResult : Except Unit Int) (http : HttpResult) :
    Option JVal × List Event :=
  let probe := check_port_open "localhost" 5001 1 connectResult
  if !probe.1 then
    (none, probe.2 ++ [.log .error .portNotOpen])
  else
    let evs := probe.2 ++ [.log .info .attemptFetch, .httpGet feedUrl 5]
    match http with
    | .timeout => (none, evs ++ [.log .error .fetchTimeout])
    | .connectionError => (none, evs ++ [.log .error .fetchConnError])
    | .response s body =>
      if 400 ≤ s ∧ s < 600 then
        (none, evs ++ [.log .error .fetchUnexpected])
      else
        match body with
        | none => (none, evs ++ [.log .info .fetchSuccess, .log .error .fetchUnexpected])
        | some j => (some j, evs ++ [.log .info .fetchSuccess])

/-- Outcome of one radar's slice of the fan-out loop of main():
`queryFail` — query_adsb2dd_for raised (request error, non-2xx
raise_for_status, or parse failure); `storeFail done` — the query succeeded
and the adds for `done` succeeded, then an exception was raised (for example
by store.add_measurement or a missing key in a measurement dict);
`ok ms` — the query succeeded and every value of the returned mapping was
stored, `ms` listing the (delay, doppler) pairs of dd.values() in order. -/
inductive RadarOutcome where
  | queryFail
  | storeFail (done : List (ℚ × ℚ))
  | ok (ms : List (ℚ × ℚ))
deriving DecidableEq

/-- Embeds one radar's slice of the fan-out loop of main() (the body of
`for radar in RADARS` with its try/except): the geometry query is issued,
then each stored measurement becomes an add event; an exception ends the
slice with the per-radar error log. -/
def processRadar (r : Radar) (o : RadarOutcome) : List Event :=
  Event.query r.id (build_adsb2dd_url r) ::
    match o with
    | .queryFail => [.log .error (.radarError r.id)]
    | .storeFail done =>
        (done.map fun m => Event.add r.id m.1 m.2) ++ [.log .error (.radarError r.id)]
    | .ok ms => ms.map fun m => Event.add r.id m.1 m.2

/-- Embeds the whole fan-out loop of main(): the radars of RADARS processed
in order, each against its own oracle outcome (keyed by radar id). -/
def cycleFanOut (geo : String → RadarOutcome) : List Event :=
  (RADARS.map fun r => processRadar r (geo r.id)).flatten

/-- The oracle inputs of one cycle of the main() loop: the socket probe
result and HTTP outcome consumed by fetch_adsb, the per-radar geometry/store
outcomes, the value of time.time() - t_start observed at the drift-correction
step, and whether an unexpected exception (one not already modelled) is
raised inside the outer try block after the fan-out. -/
structure CycleInput where
  connectResult : Except Unit Int
  http : HttpResult
  geo : String → RadarOutcome
  elapsed : ℚ
  unexpected : Bool

/-- The observable outcome of one cycle: its event trace and the duration
passed to time.sleep, `none` when time.sleep is not called. -/
structure CycleOut where
  events : List Event
  slept : Option ℚ

/-- loop_delay = 1.0 / POLL_RATE_HZ, as computed in main(). -/
def loop_delay : ℚ := 1 / POLL_RATE_HZ

/-- Embeds one iteration of the while-loop of main().  On a failed fetch the
code logs a warning, sleeps the full loop_delay and continues (skipping the
drift-correction step).  On a successful fetch it runs the fan-out loop, the
outer except branch absorbs any unexpected exception, then the
drift-correction step sleeps loop_delay - elapsed when that is positive and
does not sleep otherwise. -/
def iteration (inp : CycleInput) : CycleOut :=
  let f := fetch_adsb inp.connectResult inp.http
  match f.1 with
  | none =>
    { events := f.2 ++ [.log .warning .skipIteration, .sleep loop_delay],
      slept := some loop_delay }
  | some _ =>
    let fan := cycleFanOut inp.geo
    let body := if inp.unexpected then fan ++ [.log .error .mainLoopError] else fan
    let toSleep := loop_delay - inp.elapsed
    if 0 < toSleep then
      { events := f.2 ++ body ++ [.sleep toSleep], slept := some toSleep }
    else
      { events := f.2 ++ body, slept := none }

/-- The scheduler's loop state: how many cycles have completed and the
concatenated trace of their events. -/
structure LoopState where
  cycles : ℕ
  trace : List Event

/-- One step of the while-loop of main(): run the next cycle's iteration on
that cycle's oracle inputs and append its events. -/
def loopStep (inputs : ℕ → CycleInput) (st : LoopState) : LoopState :=
  let out := iteration (inputs st.cycles)
  { cycles := st.cycles + 1, trace := st.trace ++ out.events }

/-- The while-loop of main() run for n cycles against a stream of per-cycle
oracle inputs. -/
def runLoop (inputs : ℕ → CycleInput) : ℕ → LoopState
  | 0 => ⟨0, []⟩
  | n + 1 => loopStep inputs (runLoop inputs n)

/-- Does this event record a geometry query for radar rid? -/
def isQueryFor (rid : String) : Event → Bool
  | .query r _ => r == rid
  | _ => false

/-- Does this event record an add_measurement call for radar rid? -/
def isAddFor (rid : String) : Event → Bool
  | .add r _ _ => r == rid
  | _ => false

/-- Does this event record a geometry query or an add_measurement call for
radar rid? -/
def isRadarEvent (rid : String) : Event → Bool
  | .query r _ => r == rid
  | .add r _ _ => r == rid
  | _ => false

/-- Does this event record a geometry query or an add_measurement call for
any radar? -/
def isGeoEvent : Event → Bool
  | .query _ _ => true
  | .add _ _ _ => true
  | _ => false

/-- Number of geometry queries for radar rid in a trace. -/
def countQuery (rid : String) (evs : List Event) : ℕ :=
  (evs.filter (isQueryFor rid)).length

/-- Number of add_measurement calls for radar rid in a trace. -/
def countAdd (rid : String) (evs : List Event) : ℕ :=
  (evs.filter (isAddFor rid)).length

/-- The geometry-query and add_measurement events for radar rid in a trace,
in order. -/
def radarEvents (rid : String) (evs : List Event) : List Event :=
  evs.filter (isRadarEvent rid)

/-- All geometry-query and add_measurement events in a trace, in order. -/
def geoEvents (evs : List Event) : List Event :=
  evs.filter isGeoEvent

/-- The HTTP GET requests in a trace, as (url, timeout) pairs in order. -/
def httpGets (evs : List Event) : List (String × ℚ) :=
  evs.filterMap fun e =>
    match e with
    | .httpGet u t => some (u, t)
    | _ => none

/-- The site of an error-level log event. -/
def errSite : Event → Option LogSite
  | .log .error s => some s
  | _ => none

/-- The site of the last error-level log event of a trace. -/
def lastErrorLog (evs : List Event) : Option LogSite :=
  (evs.filterMap errSite).getLast?

/-- The duration actually slept in a cycle (0 when time.sleep was not
called). -/
def sleptDuration (out : CycleOut) : ℚ := out.slept.getD 0

/-- The host part of an http URL: drop the "http://" scheme (7 characters)
and take up to the port separator.  Analysis helper used to compare the
probe target with the configured feed host. -/
def urlHost (u : String) : String :=
  String.mk ((u.data.drop 7).takeWhile fun ch => ch != ':')

end Bridge

namespace Server

/-- Configuration constant TX_LAT of server.py. -/
def TX_LAT : ℚ := -34.9810

/-- Configuration constant TX_LON of server.py. -/
def TX_LON : ℚ := 138.7081

/-- Configuration constant RADIUS_DEG of server.py. -/
def RADIUS_DEG : ℚ := 0.05

/-- Configuration constant ANGULAR_SPEED of server.py. -/
def ANGULAR_SPEED : ℚ := 0.01

/-- Configuration constant ALT_BARO_FT of server.py. -/
def ALT_BARO_FT : ℚ := 30000

/-- Configuration constant ICAO_HEX of server.py. -/
def ICAO_HEX : String := "AEF123"

/-- Abstraction of Python round(x, 6) over rationals (the half-to-even tie
rule of float rounding is abstracted to nearest-integer rounding; no claim
depends on the rounded digits). -/
def round6 (q : ℚ) : ℚ := (round (q * 1000000) : ℤ) / 1000000

/-- Embeds serve_synthetic_adsb of server.py.  `now` is the time.time()
value; `cosθ` and `sinθ` are oracle values standing for math.cos(theta) and
math.sin(theta) with theta = (now * ANGULAR_SPEED) mod 2π, which is not a
rational-valued function.  The response is the jsonify'd dict with its two
top-level fields and the single synthetic aircraft. -/
def serve_synthetic_adsb (now cosθ sinθ : ℚ) : JVal :=
  let lat := TX_LAT + RADIUS_DEG * cosθ
  let lon := TX_LON + RADIUS_DEG * sinθ
  let aircraft : JVal := .obj [
    ("hex", .str ICAO_HEX),
    ("lat", .num (round6 lat)),
    ("lon", .num (round6 lon)),
    ("alt_baro", .num ALT_BARO_FT),
    ("alt_geom", .num (ALT_BARO_FT + 100)),
    ("flight", .str "SYN001  "),
    ("seen_pos", .num 0)]
  .obj [("now", .num now), ("aircraft", .arr [aircraft])]

/-- The field names of a JSON object, in insertion order. -/
def jsonKeys : JVal → Option (List String)
  | .obj fs => some (fs.map Prod.fst)
  | _ => none

/-- Look up a field of a JSON object. -/
def objGet (k : String) : JVal → Option JVal
  | .obj fs => (fs.find? fun p => p.1 == k).map Prod.snd
  | _ => none

/-- The aircraft list of a feed response. -/
def aircraftOf (j : JVal) : List JVal :=
  match objGet "aircraft" j with
  | some (.arr l) => l
  | _ => []

end Server

open Bridge

/-- loop_delay evaluates to one second at the configured 1 Hz poll rate. -/
theorem loop_delay_eq_one : loop_delay = 1 := by
  norm_num [loop_delay, POLL_RATE_HZ]

/-- C10: check_port_open is total — in this embedding a plain function into
Bool, since its try/except catches every exception raised while probing —
and it returns true exactly when connect_ex returned 0; a nonzero error code
and an exception while probing both yield false. -/
theorem c10_check_port_open_total (host : String) (port : ℕ) (timeLimit : ℚ)
    (res : Except Unit Int) :
    (check_port_open host port timeLimit res).1 = true ↔ res = Except.ok 0 := by
  cases res with
  | ok r => simp [check_port_open]
  | error u => simp [check_port_open]

/-- C6: for every configured radar, the geometry URL is exactly the geometry
base URL followed by the query parameters rx, tx, fc and server in that
order; the tx and fc parameters are the same literal strings for every
radar, and server is the feed base URL. -/
theorem c6_geometry_url (r : Radar) (hr : r ∈ RADARS) :
    build_adsb2dd_url r =
      ADSB2DD_URL ++ "?" ++ "rx=" ++
        (pyNumStr r.lat ++ "," ++ pyNumStr r.lon ++ "," ++ pyNumStr r.alt) ++
        "&" ++ "tx=" ++ "-34.981,138.7081,750" ++ "&" ++ "fc=" ++ "204.64" ++
        "&" ++ "server=" ++ ADSB_JSON_HOST := by
  fin_cases hr <;> decide

/-- Witness for c6_geometry_url at the first configured radar rx1. -/
theorem c6_geometry_url_witness :
    rx1 ∈ RADARS ∧
    build_adsb2dd_url rx1 =
      ADSB2DD_URL ++ "?" ++ "rx=" ++
        (pyNumStr rx1.lat ++ "," ++ pyNumStr rx1.lon ++ "," ++ pyNumStr rx1.alt) ++
        "&" ++ "tx=" ++ "-34.981,138.7081,750" ++ "&" ++ "fc=" ++ "204.64" ++
        "&" ++ "server=" ++ ADSB_JSON_HOST :=
  ⟨by decide, c6_geometry_url rx1 (by decide)⟩

/-- C8: every response of the feed endpoint is a JSON object with exactly
the top-level fields now (the request-time epoch timestamp) and aircraft (a
list), and every aircraft record has exactly the fields hex, lat, lon,
alt_baro, alt_geom, flight, seen_pos. -/
theorem c8_feed_shape (now cosθ sinθ : ℚ) :
    ∃ l : List JVal,
      Server.serve_synthetic_adsb now cosθ sinθ =
        JVal.obj [("now", JVal.num now), ("aircraft", JVal.arr l)] ∧
      ∀ a ∈ l, Server.jsonKeys a =
        some ["hex", "lat", "lon", "alt_baro", "alt_geom", "flight", "seen_pos"] := by
  refine ⟨_, rfl, ?_⟩
  intro a ha
  simp only [List.mem_singleton] at ha
  subst ha
  rfl

/-- Witness for c8_feed_shape at a concrete request time and angle. -/
theorem c8_feed_shape_witness :
    ∃ l : List JVal,
      Server.serve_synthetic_adsb 0 1 0 =
        JVal.obj [("now", JVal.num 0), ("aircraft", JVal.arr l)] ∧
      ∀ a ∈ l, Server.jsonKeys a =
        some ["hex", "lat", "lon", "alt_baro", "alt_geom", "flight", "seen_pos"] :=
  c8_feed_shape 0 1 0

/-- Helper: the trace of fetch_adsb never contains a geometry-query or an
add_measurement event — the fetch only probes, requests the feed and logs. -/
theorem fetch_adsb_no_geo (c : Except Unit Int) (h : HttpResult) :
    geoEvents (fetch_adsb c h).2 = [] := by
  rcases c with u | r
  · simp only [fetch_adsb, check_port_open]
    rfl
  · cases hb : (r == 0) with
    | false =>
      simp only [fetch_adsb, check_port_open, hb]
      rfl
    | true =>
      cases h with
      | timeout => simp only [fetch_adsb, check_port_open, hb]; rfl
      | connectionError => simp only [fetch_adsb, check_port_open, hb]; rfl
      | response s body =>
        by_cases hs : 400 ≤ s ∧ s < 600
        · simp only [fetch_adsb, check_port_open, hb, if_pos hs]; rfl
        · cases body <;> simp only [fetch_adsb, check_port_open, hb, if_neg hs] <;> rfl

/-- Helper: a filter implied by the geometry-event filter is empty on any
trace whose geometry events are empty. -/
theorem filter_eq_nil_of_geo_nil (p : Event → Bool)
    (hp : ∀ e, p e = true → isGeoEvent e = true)
    (evs : List Event) (hevs : geoEvents evs = []) : evs.filter p = [] := by
  rw [List.filter_eq_nil_iff]
  rw [geoEvents, List.filter_eq_nil_iff] at hevs
  intro e he hpe
  exact hevs e he (hp e hpe)

/-- C4 (amended): fetch_adsb probes TCP reachability of the hardcoded
address localhost:5001 as its first action; when that probe fails it
returns the no-snapshot failure without issuing any HTTP request.  The
probe also comes first when the port is open (shown at connect result 0). -/
theorem c4_liveness_precheck (c : Except Unit Int) (h : HttpResult)
    (hclosed : (check_port_open "localhost" 5001 1 c).1 = false) :
    (fetch_adsb c h).2.head? = some (Event.probe "localhost" 5001) ∧
    (fetch_adsb c h).1 = none ∧
    httpGets (fetch_adsb c h).2 = [] ∧
    (fetch_adsb (Except.ok 0) h).2.head? = some (Event.probe "localhost" 5001) := by
  have hopen : ∀ h2 : HttpResult,
      (fetch_adsb (Except.ok 0) h2).2.head? = some (Event.probe "localhost" 5001) := by
    intro h2
    cases h2 with
    | timeout => rfl
    | connectionError => rfl
    | response s body =>
      by_cases hs : 400 ≤ s ∧ s < 600
      · simp only [fetch_adsb, check_port_open, if_pos hs]; rfl
      · cases body <;> simp only [fetch_adsb, check_port_open, if_neg hs] <;> rfl
  rcases c with u | r
  · exact ⟨rfl, rfl, rfl, hopen h⟩
  · have hb : (r == 0) = false := by
      simpa [check_port_open] using hclosed
    refine ⟨?_, ?_, ?_, hopen h⟩ <;> simp only [fetch_adsb, check_port_open, hb] <;> rfl

/-- Witness for c4_liveness_precheck: a probe that raises an exception. -/
theorem c4_liveness_precheck_witness :
    (check_port_open "localhost" 5001 1 (Except.error ())).1 = false ∧
    ((fetch_adsb (Except.error ()) HttpResult.timeout).2.head? =
        some (Event.probe "localhost" 5001) ∧
      (fetch_adsb (Except.error ()) HttpResult.timeout).1 = none ∧
      httpGets (fetch_adsb (Except.error ()) HttpResult.timeout).2 = [] ∧
      (fetch_adsb (Except.ok 0) HttpResult.timeout).2.head? =
        some (Event.probe "localhost" 5001)) :=
  ⟨by decide, c4_liveness_precheck (Except.error ()) HttpResult.timeout (by decide)⟩

/-- C4 counterexample: the claim says the probe targets the configured
feed's host, but the probe target of every fetch is the hardcoded
localhost:5001 while the configured feed host (the authority of
ADSB_JSON_HOST) is 192.168.0.172. -/
theorem c4_counterexample_probe_host :
    (fetch_adsb (Except.error ()) HttpResult.timeout).2.head? =
      some (Event.probe "localhost" 5001) ∧
    ADSB_JSON_HOST = "http://192.168.0.172:5001" ∧
    urlHost ADSB_JSON_HOST = "192.168.0.172" ∧
    ("localhost" == "192.168.0.172") = false := by
  refine ⟨by decide, rfl, by decide, by decide⟩

/-- C5 (amended): fetch_adsb applies the bounded request timeout of 5
seconds and issues exactly one HTTP request per call (no retry); a Timeout,
a ConnectionError and a malformed response (a 4xx/5xx status, which is what
resp.raise_for_status raises on, or a non-parseable body) are logged at
three distinct sites and every failure kind collapses to the same
no-snapshot result None. -/
theorem c5_feed_failure_taxonomy (c : Except Unit Int)
    (hopen : (check_port_open "localhost" 5001 1 c).1 = true)
    (s : ℕ) (b : Option JVal) (hs : 400 ≤ s ∧ s < 600) (h : HttpResult) :
    (fetch_adsb c HttpResult.timeout).1 = none ∧
    (fetch_adsb c HttpResult.connectionError).1 = none ∧
    (fetch_adsb c (HttpResult.response s b)).1 = none ∧
    (fetch_adsb c (HttpResult.response 200 none)).1 = none ∧
    lastErrorLog (fetch_adsb c HttpResult.timeout).2 = some LogSite.fetchTimeout ∧
    lastErrorLog (fetch_adsb c HttpResult.connectionError).2 = some LogSite.fetchConnError ∧
    lastErrorLog (fetch_adsb c (HttpResult.response s b)).2 = some LogSite.fetchUnexpected ∧
    lastErrorLog (fetch_adsb c (HttpResult.response 200 none)).2 = some LogSite.fetchUnexpected ∧
    httpGets (fetch_adsb c h).2 = [(feedUrl, 5)] := by
  rcases c with u | r
  · simp [check_port_open] at hopen
  · have hr : r = 0 := by simpa [check_port_open] using hopen
    subst hr
    refine ⟨rfl, rfl, ?_, rfl, rfl, rfl, ?_, rfl, ?_⟩
    · simp only [fetch_adsb, check_port_open, if_pos hs]; rfl
    · simp only [fetch_adsb, check_port_open, if_pos hs]; rfl
    · cases h with
      | timeout => rfl
      | connectionError => rfl
      | response s2 b2 =>
        by_cases hs2 : 400 ≤ s2 ∧ s2 < 600
        · simp only [fetch_adsb, check_port_open, if_pos hs2]; rfl
        · cases b2 <;> simp only [fetch_adsb, check_port_open, if_neg hs2] <;> rfl

/-- Witness for c5_feed_failure_taxonomy: port open, status 404, empty
body, and a timeout for the single-request conjunct. -/
theorem c5_feed_failure_taxonomy_witness :
    (check_port_open "localhost" 5001 1 (Except.ok 0)).1 = true ∧
    (400 ≤ 404 ∧ 404 < 600) ∧
    ((fetch_adsb (Except.ok 0) HttpResult.timeout).1 = none ∧
      (fetch_adsb (Except.ok 0) HttpResult.connectionError).1 = none ∧
      (fetch_adsb (Except.ok 0) (HttpResult.response 404 none)).1 = none ∧
      (fetch_adsb (Except.ok 0) (HttpResult.response 200 none)).1 = none ∧
      lastErrorLog (fetch_adsb (Except.ok 0) HttpResult.timeout).2 =
        some LogSite.fetchTimeout ∧
      lastErrorLog (fetch_adsb (Except.ok 0) HttpResult.connectionError).2 =
        some LogSite.fetchConnError ∧
      lastErrorLog (fetch_adsb (Except.ok 0) (HttpResult.response 404 none)).2 =
        some LogSite.fetchUnexpected ∧
      lastErrorLog (fetch_adsb (Except.ok 0) (HttpResult.response 200 none)).2 =
        some LogSite.fetchUnexpected ∧
      httpGets (fetch_adsb (Except.ok 0) HttpResult.timeout).2 = [(feedUrl, 5)]) :=
  ⟨by decide, by decide,
    c5_feed_failure_taxonomy (Except.ok 0) (by decide) 404 none (by decide) HttpResult.timeout⟩

/-- C5 counterexample: a response with the non-2xx status 301 and a
parseable body yields a snapshot rather than the no-snapshot failure,
because resp.raise_for_status only raises for 4xx/5xx statuses; so
"non-2xx status" is not a failure kind of fetch_adsb as claimed. -/
theorem c5_counterexample_non2xx :
    (fetch_adsb (Except.ok 0) (HttpResult.response 301 (some (JVal.num 1)))).1 =
      some (JVal.num 1) ∧
    300 ≤ 301 :=
  ⟨rfl, by decide⟩

/-- C9: at every request time the synthetic feed serves exactly one
aircraft, whose hex, alt_baro, alt_geom (= alt_baro + 100), flight and
seen_pos fields are the same constants for every input; only lat, lon and
now depend on the input. -/
theorem c9_constant_aircraft (now cosθ sinθ : ℚ) :
    ∃ a : JVal,
      Server.aircraftOf (Server.serve_synthetic_adsb now cosθ sinθ) = [a] ∧
      Server.objGet "hex" a = some (JVal.str "AEF123") ∧
      Server.objGet "alt_baro" a = some (JVal.num 30000) ∧
      Server.objGet "alt_geom" a = some (JVal.num (30000 + 100)) ∧
      Server.objGet "flight" a = some (JVal.str "SYN001  ") ∧
      Server.objGet "seen_pos" a = some (JVal.num 0) ∧
      Server.objGet "now" (Server.serve_synthetic_adsb now cosθ sinθ) =
        some (JVal.num now) := by
  exact ⟨_, rfl, rfl, rfl, rfl, rfl, rfl, rfl⟩

/-- Helper: on a failed fetch one iteration reduces to the skip branch of
the loop: warn, sleep the full loop_delay, continue. -/
theorem iteration_fail (inp : CycleInput)
    (hfail : (fetch_adsb inp.connectResult inp.http).1 = none) :
    iteration inp =
      { events := (fetch_adsb inp.connectResult inp.http).2 ++
          [Event.log .warning .skipIteration, Event.sleep loop_delay],
        slept := some loop_delay } := by
  simp only [iteration]
  rw [hfail]

/-- Helper: on a successful fetch one iteration runs the fan-out, possibly
the outer error log, and the drift-correction step. -/
theorem iteration_success (inp : CycleInput) (j : JVal)
    (hs : (fetch_adsb inp.connectResult inp.http).1 = some j) :
    iteration inp =
      (let fan := cycleFanOut inp.geo
       let body := if inp.unexpected then fan ++ [Event.log .error .mainLoopError] else fan
       if 0 < loop_delay - inp.elapsed then
         { events := (fetch_adsb inp.connectResult inp.http).2 ++ body ++
             [Event.sleep (loop_delay - inp.elapsed)],
           slept := some (loop_delay - inp.elapsed) }
       else
         { events := (fetch_adsb inp.connectResult inp.http).2 ++ body, slept := none }) := by
  simp only [iteration]
  rw [hs]

/-- C2: in every cycle whose feed fetch returns no snapshot, no geometry
query is issued and no measurement is added for any radar, the skip warning
is logged, and the cycle proceeds to a sleep; the iteration is a total
function of its oracle inputs, so no exception escapes the loop. -/
theorem c2_whole_cycle_abort (inp : CycleInput)
    (hfail : (fetch_adsb inp.connectResult inp.http).1 = none) :
    geoEvents (iteration inp).events = [] ∧
    Event.log .warning .skipIteration ∈ (iteration inp).events ∧
    (iteration inp).slept = some loop_delay := by
  rw [iteration_fail inp hfail]
  refine ⟨?_, by simp, rfl⟩
  have h1 := fetch_adsb_no_geo inp.connectResult inp.http
  rw [geoEvents] at h1 ⊢
  rw [List.filter_append, h1]
  rfl

/-- Witness for c2_whole_cycle_abort: a cycle whose probe raises. -/
theorem c2_whole_cycle_abort_witness :
    (fetch_adsb (CycleInput.mk (Except.error ()) HttpResult.timeout
        (fun _ => RadarOutcome.queryFail) 0 false).connectResult
      (CycleInput.mk (Except.error ()) HttpResult.timeout
        (fun _ => RadarOutcome.queryFail) 0 false).http).1 = none ∧
    (geoEvents (iteration (CycleInput.mk (Except.error ()) HttpResult.timeout
        (fun _ => RadarOutcome.queryFail) 0 false)).events = [] ∧
      Event.log .warning .skipIteration ∈ (iteration (CycleInput.mk (Except.error ())
        HttpResult.timeout (fun _ => RadarOutcome.queryFail) 0 false)).events ∧
      (iteration (CycleInput.mk (Except.error ()) HttpResult.timeout
        (fun _ => RadarOutcome.queryFail) 0 false)).slept = some loop_delay) :=
  ⟨rfl, c2_whole_cycle_abort _ rfl⟩

/-- Helper: a filter that rejects add events of radar rid is empty on the
mapped add events of rid. -/
theorem filter_map_add_nil (rid : String) (ms : List (ℚ × ℚ)) (p : Event → Bool)
    (ha : ∀ d dp, p (Event.add rid d dp) = false) :
    (ms.map fun m => Event.add rid m.1 m.2).filter p = [] := by
  induction ms with
  | nil => rfl
  | cons m t ih => simp [List.filter_cons, ha, ih]

/-- Helper: a filter that accepts add events of radar rid keeps every
mapped add event of rid. -/
theorem filter_map_add_all (rid : String) (ms : List (ℚ × ℚ)) (p : Event → Bool)
    (ha : ∀ d dp, p (Event.add rid d dp) = true) :
    ((ms.map fun m => Event.add rid m.1 m.2).filter p).length = ms.length := by
  induction ms with
  | nil => rfl
  | cons m t ih => simp [List.filter_cons, ha, ih]

/-- Helper: a filter that rejects radar r's query and add events and all
error logs is empty on r's fan-out slice, whatever the outcome. -/
theorem processRadar_filter_none (r : Radar) (o : RadarOutcome) (p : Event → Bool)
    (hq : ∀ u, p (Event.query r.id u) = false)
    (ha : ∀ d dp, p (Event.add r.id d dp) = false)
    (hl : ∀ site, p (Event.log .error site) = false) :
    (processRadar r o).filter p = [] := by
  cases o with
  | queryFail => simp [processRadar, List.filter_cons, hq, hl]
  | storeFail done =>
      simp [processRadar, List.filter_cons, List.filter_append, hq, hl,
        filter_map_add_nil r.id done p ha]
  | ok ms =>
      simp [processRadar, List.filter_cons, hq, filter_map_add_nil r.id ms p ha]

/-- Helper: every fan-out slice contains exactly one geometry query for its
own radar, whatever the outcome. -/
theorem processRadar_countQuery_self (r : Radar) (o : RadarOutcome) :
    countQuery r.id (processRadar r o) = 1 := by
  have hnil : ∀ ms : List (ℚ × ℚ),
      (ms.map fun m => Event.add r.id m.1 m.2).filter (isQueryFor r.id) = [] :=
    fun ms => filter_map_add_nil r.id ms (isQueryFor r.id) (fun d dp => rfl)
  have hq : ∀ u, isQueryFor r.id (Event.query r.id u) = true := by
    intro u; simp [isQueryFor]
  have hl : ∀ site, isQueryFor r.id (Event.log .error site) = false := fun _ => rfl
  cases o with
  | queryFail => simp [processRadar, countQuery, List.filter_cons, hq, hl]
  | storeFail done =>
      simp [processRadar, countQuery, List.filter_cons, List.filter_append, hq, hl, hnil done]
  | ok ms => simp [processRadar, countQuery, List.filter_cons, hq, hnil ms]

/-- Helper: a successful fan-out slice adds exactly one measurement per
entry of the returned mapping. -/
theorem processRadar_countAdd_ok (r : Radar) (ms : List (ℚ × ℚ)) :
    countAdd r.id (processRadar r (RadarOutcome.ok ms)) = ms.length := by
  have ha : ∀ d dp, isAddFor r.id (Event.add r.id d dp) = true := by
    intro d dp; simp [isAddFor]
  have hq : ∀ u, isAddFor r.id (Event.query r.id u) = false := fun _ => rfl
  simp [processRadar, countAdd, List.filter_cons, hq,
    filter_map_add_all r.id ms (isAddFor r.id) ha]

/-- Helper: another radar's fan-out slice contains no query event for rid. -/
theorem processRadar_countQuery_other (r : Radar) (o : RadarOutcome) (rid : String)
    (hne : (r.id == rid) = false) :
    countQuery rid (processRadar r o) = 0 := by
  rw [countQuery, processRadar_filter_none r o _
    (fun u => by simp [isQueryFor, hne]) (fun d dp => rfl) (fun site => rfl)]
  rfl

/-- Helper: another radar's fan-out slice contains no add event for rid. -/
theorem processRadar_countAdd_other (r : Radar) (o : RadarOutcome) (rid : String)
    (hne : (r.id == rid) = false) :
    countAdd rid (processRadar r o) = 0 := by
  rw [countAdd, processRadar_filter_none r o _
    (fun u => rfl) (fun d dp => by simp [isAddFor, hne]) (fun site => rfl)]
  rfl

/-- Helper: another radar's fan-out slice contains no radar event for rid. -/
theorem processRadar_radarEvents_other (r : Radar) (o : RadarOutcome) (rid : String)
    (hne : (r.id == rid) = false) :
    radarEvents rid (processRadar r o) = [] := by
  rw [radarEvents, processRadar_filter_none r o _
    (fun u => by simp [isRadarEvent, hne]) (fun d dp => by simp [isRadarEvent, hne])
    (fun site => rfl)]

/-- Helper: the fan-out is the concatenation of the three radars' slices. -/
theorem cycleFanOut_eq (geo : String → RadarOutcome) :
    cycleFanOut geo =
      processRadar rx1 (geo rx1.id) ++
        (processRadar rx2 (geo rx2.id) ++ (processRadar rx3 (geo rx3.id) ++ [])) := rfl

/-- Helper: countQuery distributes over trace concatenation. -/
theorem countQuery_append (rid : String) (a b : List Event) :
    countQuery rid (a ++ b) = countQuery rid a + countQuery rid b := by
  simp [countQuery, List.filter_append]

/-- Helper: countAdd distributes over trace concatenation. -/
theorem countAdd_append (rid : String) (a b : List Event) :
    countAdd rid (a ++ b) = countAdd rid a + countAdd rid b := by
  simp [countAdd, List.filter_append]

/-- Helper: radarEvents distributes over trace concatenation. -/
theorem radarEvents_append (rid : String) (a b : List Event) :
    radarEvents rid (a ++ b) = radarEvents rid a ++ radarEvents rid b := by
  simp [radarEvents, List.filter_append]

/-- Helper: in a successful-fetch cycle, any filter that only accepts
geometry-query or add events sees exactly the fan-out's events. -/
theorem iteration_filter_success (inp : CycleInput) (j : JVal)
    (hs : (fetch_adsb inp.connectResult inp.http).1 = some j) (p : Event → Bool)
    (hgeo : ∀ e, p e = true → isGeoEvent e = true) :
    (iteration inp).events.filter p = (cycleFanOut inp.geo).filter p := by
  have hfetch : (fetch_adsb inp.connectResult inp.http).2.filter p = [] :=
    filter_eq_nil_of_geo_nil p hgeo _ (fetch_adsb_no_geo inp.connectResult inp.http)
  have hother : ∀ e : Event, isGeoEvent e = false → p e = false := by
    intro e he
    cases hpe : p e with
    | false => rfl
    | true => rw [hgeo e hpe] at he; exact absurd he (by simp)
  have hlog : ∀ site, p (Event.log .error site) = false := fun site => hother _ rfl
  have hsleep : ∀ d, p (Event.sleep d) = false := fun d => hother _ rfl
  rw [iteration_success inp j hs]
  cases hu : inp.unexpected <;> by_cases ht : 0 < loop_delay - inp.elapsed <;>
    simp [ht, List.filter_append, List.filter_cons, hfetch, hlog, hsleep]

/-- C1: in every cycle with a successful feed fetch, each configured radar
is queried exactly once whatever the outcomes; each radar whose query (and
storing) succeeds gets exactly one add_measurement per entry of its returned
mapping; and the query/add events of a radar depend only on that radar's own
oracle outcome, so a failure of another radar leaves them unchanged. -/
theorem c1_cross_radar_isolation (inp : CycleInput) (j : JVal)
    (hs : (fetch_adsb inp.connectResult inp.http).1 = some j)
    (r : Radar) (hr : r ∈ RADARS)
    (r2 : Radar) (hr2 : r2 ∈ RADARS) (ms : List (ℚ × ℚ))
    (hok : inp.geo r2.id = RadarOutcome.ok ms)
    (geo2 : String → RadarOutcome) (hagree : geo2 r.id = inp.geo r.id) :
    countQuery r.id (iteration inp).events = 1 ∧
    countAdd r2.id (iteration inp).events = ms.length ∧
    radarEvents r.id (iteration inp).events = radarEvents r.id (cycleFanOut inp.geo) ∧
    radarEvents r.id (cycleFanOut geo2) = radarEvents r.id (cycleFanOut inp.geo) := by
  have hbridgeQ : countQuery r.id (iteration inp).events =
      countQuery r.id (cycleFanOut inp.geo) := by
    rw [countQuery, countQuery,
      iteration_filter_success inp j hs (isQueryFor r.id)
        (by intro e hpe; cases e <;> simp_all [isQueryFor, isGeoEvent])]
  have hbridgeA : countAdd r2.id (iteration inp).events =
      countAdd r2.id (cycleFanOut inp.geo) := by
    rw [countAdd, countAdd,
      iteration_filter_success inp j hs (isAddFor r2.id)
        (by intro e hpe; cases e <;> simp_all [isAddFor, isGeoEvent])]
  have hbridgeR : radarEvents r.id (iteration inp).events =
      radarEvents r.id (cycleFanOut inp.geo) := by
    rw [radarEvents, radarEvents,
      iteration_filter_success inp j hs (isRadarEvent r.id)
        (by intro e hpe; cases e <;> simp_all [isRadarEvent, isGeoEvent])]
  refine ⟨?_, ?_, hbridgeR, ?_⟩
  · rw [hbridgeQ]
    simp only [RADARS, List.mem_cons, List.not_mem_nil, or_false] at hr
    rcases hr with h | h | h
    · subst h
      rw [cycleFanOut_eq]
      simp only [countQuery_append]
      rw [processRadar_countQuery_self rx1 (inp.geo rx1.id),
        processRadar_countQuery_other rx2 (inp.geo rx2.id) rx1.id (by decide),
        processRadar_countQuery_other rx3 (inp.geo rx3.id) rx1.id (by decide)]
      simp [countQuery, countAdd, radarEvents]
    · subst h
      rw [cycleFanOut_eq]
      simp only [countQuery_append]
      rw [processRadar_countQuery_self rx2 (inp.geo rx2.id),
        processRadar_countQuery_other rx1 (inp.geo rx1.id) rx2.id (by decide),
        processRadar_countQuery_other rx3 (inp.geo rx3.id) rx2.id (by decide)]
      simp [countQuery, countAdd, radarEvents]
    · subst h
      rw [cycleFanOut_eq]
      simp only [countQuery_append]
      rw [processRadar_countQuery_self rx3 (inp.geo rx3.id),
        processRadar_countQuery_other rx1 (inp.geo rx1.id) rx3.id (by decide),
        processRadar_countQuery_other rx2 (inp.geo rx2.id) rx3.id (by decide)]
      simp [countQuery, countAdd, radarEvents]
  · rw [hbridgeA]
    simp only [RADARS, List.mem_cons, List.not_mem_nil, or_false] at hr2
    rcases hr2 with h | h | h
    · subst h
      rw [cycleFanOut_eq]
      simp only [countAdd_append]
      rw [hok, processRadar_countAdd_ok rx1 ms,
        processRadar_countAdd_other rx2 (inp.geo rx2.id) rx1.id (by decide),
        processRadar_countAdd_other rx3 (inp.geo rx3.id) rx1.id (by decide)]
      simp [countQuery, countAdd, radarEvents]
    · subst h
      rw [cycleFanOut_eq]
      simp only [countAdd_append]
      rw [hok, processRadar_countAdd_ok rx2 ms,
        processRadar_countAdd_other rx1 (inp.geo rx1.id) rx2.id (by decide),
        processRadar_countAdd_other rx3 (inp.geo rx3.id) rx2.id (by decide)]
      simp [countQuery, countAdd, radarEvents]
    · subst h
      rw [cycleFanOut_eq]
      simp only [countAdd_append]
      rw [hok, processRadar_countAdd_ok rx3 ms,
        processRadar_countAdd_other rx1 (inp.geo rx1.id) rx3.id (by decide),
        processRadar_countAdd_other rx2 (inp.geo rx2.id) rx3.id (by decide)]
      simp [countQuery, countAdd, radarEvents]
  · simp only [RADARS, List.mem_cons, List.not_mem_nil, or_false] at hr
    rcases hr with h | h | h
    · subst h
      rw [cycleFanOut_eq, cycleFanOut_eq]
      simp only [radarEvents_append]
      rw [hagree,
        processRadar_radarEvents_other rx2 (geo2 rx2.id) rx1.id (by decide),
        processRadar_radarEvents_other rx2 (inp.geo rx2.id) rx1.id (by decide),
        processRadar_radarEvents_other rx3 (geo2 rx3.id) rx1.id (by decide),
        processRadar_radarEvents_other rx3 (inp.geo rx3.id) rx1.id (by decide)]
    · subst h
      rw [cycleFanOut_eq, cycleFanOut_eq]
      simp only [radarEvents_append]
      rw [hagree,
        processRadar_radarEvents_other rx1 (geo2 rx1.id) rx2.id (by decide),
        processRadar_radarEvents_other rx1 (inp.geo rx1.id) rx2.id (by decide),
        processRadar_radarEvents_other rx3 (geo2 rx3.id) rx2.id (by decide),
        processRadar_radarEvents_other rx3 (inp.geo rx3.id) rx2.id (by decide)]
    · subst h
      rw [cycleFanOut_eq, cycleFanOut_eq]
      simp only [radarEvents_append]
      rw [hagree,
        processRadar_radarEvents_other rx1 (geo2 rx1.id) rx3.id (by decide),
        processRadar_radarEvents_other rx1 (inp.geo rx1.id) rx3.id (by decide),
        processRadar_radarEvents_other rx2 (geo2 rx2.id) rx3.id (by decide),
        processRadar_radarEvents_other rx2 (inp.geo rx2.id) rx3.id (by decide)]

/-- Witness for c1_cross_radar_isolation: a successful fetch, rx2's geometry
query failing, rx1 and rx3 succeeding with one measurement (delay 12.3,
doppler -4.5), and a second oracle that agrees with the first on rx1. -/
theorem c1_cross_radar_isolation_witness :
    (fetch_adsb (CycleInput.mk (Except.ok 0) (HttpResult.response 200 (some (JVal.num 1))) (fun rid => if rid == "rx2" then RadarOutcome.queryFail else RadarOutcome.ok [(mkRat 123 10, mkRat (-45) 10)]) 0 false).connectResult (CycleInput.mk (Except.ok 0) (HttpResult.response 200 (some (JVal.num 1))) (fun rid => if rid == "rx2" then RadarOutcome.queryFail else RadarOutcome.ok [(mkRat 123 10, mkRat (-45) 10)]) 0 false).http).1 = some (JVal.num 1) ∧
    rx1 ∈ RADARS ∧
    rx3 ∈ RADARS ∧
    (CycleInput.mk (Except.ok 0) (HttpResult.response 200 (some (JVal.num 1))) (fun rid => if rid == "rx2" then RadarOutcome.queryFail else RadarOutcome.ok [(mkRat 123 10, mkRat (-45) 10)]) 0 false).geo rx3.id = RadarOutcome.ok [(mkRat 123 10, mkRat (-45) 10)] ∧
    (fun rid => if rid == "rx1" then RadarOutcome.ok [(mkRat 123 10, mkRat (-45) 10)] else RadarOutcome.queryFail) rx1.id = (CycleInput.mk (Except.ok 0) (HttpResult.response 200 (some (JVal.num 1))) (fun rid => if rid == "rx2" then RadarOutcome.queryFail else RadarOutcome.ok [(mkRat 123 10, mkRat (-45) 10)]) 0 false).geo rx1.id ∧
    (countQuery rx1.id (iteration (CycleInput.mk (Except.ok 0) (HttpResult.response 200 (some (JVal.num 1))) (fun rid => if rid == "rx2" then RadarOutcome.queryFail else RadarOutcome.ok [(mkRat 123 10, mkRat (-45) 10)]) 0 false)).events = 1 ∧
      countAdd rx3.id (iteration (CycleInput.mk (Except.ok 0) (HttpResult.response 200 (some (JVal.num 1))) (fun rid => if rid == "rx2" then RadarOutcome.queryFail else RadarOutcome.ok [(mkRat 123 10, mkRat (-45) 10)]) 0 false)).events =
        [((mkRat 123 10 : ℚ), (mkRat (-45) 10 : ℚ))].length ∧
      radarEvents rx1.id (iteration (CycleInput.mk (Except.ok 0) (HttpResult.response 200 (some (JVal.num 1))) (fun rid => if rid == "rx2" then RadarOutcome.queryFail else RadarOutcome.ok [(mkRat 123 10, mkRat (-45) 10)]) 0 false)).events =
        radarEvents rx1.id (cycleFanOut (CycleInput.mk (Except.ok 0) (HttpResult.response 200 (some (JVal.num 1))) (fun rid => if rid == "rx2" then RadarOutcome.queryFail else RadarOutcome.ok [(mkRat 123 10, mkRat (-45) 10)]) 0 false).geo) ∧
      radarEvents rx1.id (cycleFanOut (fun rid => if rid == "rx1" then RadarOutcome.ok [(mkRat 123 10, mkRat (-45) 10)] else RadarOutcome.queryFail)) =
        radarEvents rx1.id (cycleFanOut (CycleInput.mk (Except.ok 0) (HttpResult.response 200 (some (JVal.num 1))) (fun rid => if rid == "rx2" then RadarOutcome.queryFail else RadarOutcome.ok [(mkRat 123 10, mkRat (-45) 10)]) 0 false).geo)) :=
  ⟨rfl, by decide, by decide, rfl, rfl,
    c1_cross_radar_isolation (CycleInput.mk (Except.ok 0) (HttpResult.response 200 (some (JVal.num 1))) (fun rid => if rid == "rx2" then RadarOutcome.queryFail else RadarOutcome.ok [(mkRat 123 10, mkRat (-45) 10)]) 0 false) (JVal.num 1) rfl rx1 (by decide) rx3 (by decide)
      [(mkRat 123 10, mkRat (-45) 10)] rfl (fun rid => if rid == "rx1" then RadarOutcome.ok [(mkRat 123 10, mkRat (-45) 10)] else RadarOutcome.queryFail) rfl⟩

/-- C3 counterexample: in a failed-fetch cycle whose body already consumed a
full period (elapsed = 1 = period), the claimed sleep max(0, period -
elapsed) is 0, but the code sleeps the full loop_delay = 1, because the skip
path calls time.sleep(loop_delay) and bypasses the drift-correction step. -/
theorem c3_counterexample_failed_fetch_sleep :
    (iteration (CycleInput.mk (Except.error ()) HttpResult.timeout
      (fun _ => RadarOutcome.queryFail) 1 false)).slept = some loop_delay ∧
    loop_delay = 1 ∧
    max (0 : ℚ) (loop_delay - 1) = 0 ∧
    (0 : ℚ) < 1 := by
  refine ⟨rfl, loop_delay_eq_one, ?_, by norm_num⟩
  rw [loop_delay_eq_one]
  norm_num

/-- C3 (amended): on a cycle whose fetch succeeds, the scheduler sleeps
max(0, period - elapsed) — and does not call sleep at all when elapsed has
reached the period; on a cycle whose fetch fails, it instead sleeps the full
period regardless of the elapsed time. -/
theorem c3_drift_correction_amended (f1 s1 s2 : CycleInput) (j1 j2 : JVal)
    (hf : (fetch_adsb f1.connectResult f1.http).1 = none)
    (h1 : (fetch_adsb s1.connectResult s1.http).1 = some j1)
    (h2 : (fetch_adsb s2.connectResult s2.http).1 = some j2)
    (hlate : loop_delay ≤ s2.elapsed) :
    (iteration f1).slept = some loop_delay ∧
    sleptDuration (iteration s1) = max 0 (loop_delay - s1.elapsed) ∧
    (iteration s2).slept = none := by
  refine ⟨?_, ?_, ?_⟩
  · rw [iteration_fail f1 hf]
  · rw [iteration_success s1 j1 h1]
    by_cases ht : 0 < loop_delay - s1.elapsed
    · simp only [if_pos ht, sleptDuration, Option.getD_some]
      rw [max_eq_right (le_of_lt ht)]
    · simp only [if_neg ht, sleptDuration, Option.getD_none]
      rw [max_eq_left (le_of_not_lt ht)]
  · rw [iteration_success s2 j2 h2]
    have ht : ¬ 0 < loop_delay - s2.elapsed := by
      simp only [not_lt, sub_nonpos]
      exact hlate
    simp only [if_neg ht]

/-- Witness for c3_drift_correction_amended: a failed-fetch cycle, a
successful cycle with elapsed 1/4, and a successful cycle with elapsed 2. -/
theorem c3_drift_correction_amended_witness :
    (fetch_adsb (CycleInput.mk (Except.error ()) HttpResult.timeout
      (fun _ => RadarOutcome.queryFail) 1 false).connectResult
      (CycleInput.mk (Except.error ()) HttpResult.timeout
        (fun _ => RadarOutcome.queryFail) 1 false).http).1 = none ∧
    (fetch_adsb (CycleInput.mk (Except.ok 0) (HttpResult.response 200 (some (JVal.num 1)))
      (fun _ => RadarOutcome.queryFail) (mkRat 1 4) false).connectResult
      (CycleInput.mk (Except.ok 0) (HttpResult.response 200 (some (JVal.num 1)))
        (fun _ => RadarOutcome.queryFail) (mkRat 1 4) false).http).1 = some (JVal.num 1) ∧
    (fetch_adsb (CycleInput.mk (Except.ok 0) (HttpResult.response 200 (some (JVal.num 1)))
      (fun _ => RadarOutcome.queryFail) 2 false).connectResult
      (CycleInput.mk (Except.ok 0) (HttpResult.response 200 (some (JVal.num 1)))
        (fun _ => RadarOutcome.queryFail) 2 false).http).1 = some (JVal.num 1) ∧
    loop_delay ≤ (CycleInput.mk (Except.ok 0) (HttpResult.response 200 (some (JVal.num 1)))
      (fun _ => RadarOutcome.queryFail) 2 false).elapsed ∧
    ((iteration (CycleInput.mk (Except.error ()) HttpResult.timeout
        (fun _ => RadarOutcome.queryFail) 1 false)).slept = some loop_delay ∧
      sleptDuration (iteration (CycleInput.mk (Except.ok 0)
        (HttpResult.response 200 (some (JVal.num 1)))
        (fun _ => RadarOutcome.queryFail) (mkRat 1 4) false)) =
        max 0 (loop_delay - (CycleInput.mk (Except.ok 0)
          (HttpResult.response 200 (some (JVal.num 1)))
          (fun _ => RadarOutcome.queryFail) (mkRat 1 4) false).elapsed) ∧
      (iteration (CycleInput.mk (Except.ok 0) (HttpResult.response 200 (some (JVal.num 1)))
        (fun _ => RadarOutcome.queryFail) 2 false)).slept = none) :=
  ⟨rfl, rfl, rfl, by rw [loop_delay_eq_one]; norm_num,
    c3_drift_correction_amended _ _ _ (JVal.num 1) (JVal.num 1) rfl rfl rfl
      (by rw [loop_delay_eq_one]; norm_num)⟩

/-- C7: no combination of feed-side, geometry-side or unexpected failures is
fatal: every iteration of the loop is a total function of its oracle inputs
(each failure is absorbed by an except branch), so for every failure stream
the scheduler completes exactly n cycles in n steps and its trace is the
in-order concatenation of the n iterations' traces — it always proceeds to
the next scheduled cycle. -/
theorem c7_no_failure_fatal (inputs : ℕ → CycleInput) (n : ℕ) :
    (runLoop inputs n).cycles = n ∧
    (runLoop inputs n).trace =
      ((List.range n).map fun k => (iteration (inputs k)).events).flatten := by
  induction n with
  | zero => exact ⟨rfl, rfl⟩
  | succ m ih =>
    refine ⟨?_, ?_⟩
    · simp [runLoop, loopStep, ih.1]
    · simp [runLoop, loopStep, ih.1, ih.2, List.range_succ]
